import Mathlib

/-!
Shallow embedding of the QQfarmBot admin-server session supervisor
(apps/admin-server/src/bot/botController.ts) and runtime config store
(runtime/configStore), with theorems checking the natural-language
specification against the code.

Conventions used throughout:
- JS numbers that are integers in the code are modelled as Int; prices that
  can be fractional are modelled as Rat.
- A JS array slot holding NaN (unset level threshold) is modelled as an
  Option Int entry that is none; reading out of range yields none, matching
  the fact that isFinite(undefined) and isFinite(NaN) are both false.
- JS Map lookups are modelled with association lists and List.lookup.
-/

namespace QQFarm

/-! ## Level progress (botController.getLevelExpStarts / computeExpProgress) -/

/-- Read starts[i] as the JS code does: a negative or out-of-range index gives
undefined and an in-range NaN slot gives NaN, both of which fail the
Number.isFinite checks; either is modelled as none. -/
def startsAt (starts : Array (Option Int)) (i : Int) : Option Int :=
  if i < 0 then none else starts.getD i.toNat none

/-- maxLevel = starts.length - 2, as in computeExpProgress. -/
def maxLevelOf (starts : Array (Option Int)) : Int :=
  (starts.size : Int) - 2

/-- The clamping of the reported level: lvl = 1 when below 1, then
lvl = min(floor(lvl), maxLevel). Levels are integral so floor is dropped. -/
def clampLevel (starts : Array (Option Int)) (level : Int) : Int :=
  min (max level 1) (maxLevelOf starts)

/-- The lvlLooksValid test of computeExpProgress: both thresholds around the
clamped reported level are finite and totalExp falls in the bracket. -/
def fastPathHolds (starts : Array (Option Int)) (level totalExp : Int) : Bool :=
  let lvl := clampLevel starts level
  match startsAt starts lvl, startsAt starts (lvl + 1) with
  | some s, some n => decide (s ≤ totalExp) && decide (totalExp < n)
  | _, _ => false

/-- One-to-one translation of the while (lo <= hi) binary-search loop of
computeExpProgress, with an explicit iteration budget. The loop body shrinks
hi + 1 - lo by at least one on every pass, so a budget of (hi + 1 - lo).toNat
iterations (supplied by expSearch below) always reaches the lo > hi exit. -/
def expSearchGo (starts : Array (Option Int)) (exp : Int) :
    Nat → Int → Int → Int
  | 0, _, hi => hi
  | fuel + 1, lo, hi =>
    if lo ≤ hi then
      let mid := (lo + hi) / 2
      match startsAt starts mid with
      | none => expSearchGo starts exp fuel lo (mid - 1)
      | some midAt =>
        if midAt ≤ exp then expSearchGo starts exp fuel (mid + 1) hi
        else expSearchGo starts exp fuel lo (mid - 1)
    else hi

/-- The binary-search fallback of computeExpProgress: highest level whose
(finite) threshold is at most exp, returned as the final value of hi. -/
def expSearch (starts : Array (Option Int)) (exp lo hi : Int) : Int :=
  expSearchGo starts exp (hi + 1 - lo).toNat lo hi

structure ExpProgress where
  current : Int
  needed : Int
deriving DecidableEq, Repr

/-- Shallow embedding of BotController.computeExpProgress. The starts table is
passed explicitly (getLevelExpStarts builds it from RoleLevel.json); a null
table short-circuits to none before this function is reached. -/
def computeExpProgress (starts : Array (Option Int)) (level totalExp : Int) :
    Option ExpProgress :=
  let exp := totalExp
  if exp < 0 then none
  else
    let maxLevel := maxLevelOf starts
    let lvl := clampLevel starts level
    let effective :=
      if fastPathHolds starts level totalExp then lvl
      else max 1 (min (expSearch starts exp 1 maxLevel) maxLevel)
    match startsAt starts effective, startsAt starts (effective + 1) with
    | some curStart, some nxtStart =>
      let needed := nxtStart - curStart
      let current := exp - curStart
      if needed ≤ 0 then none
      else some ⟨max 0 (min needed current), needed⟩
    | _, _ => none

/-- The level table of spec property 1 and 2: starts=[_,0,100,250,500,900]. -/
def demoStarts : Array (Option Int) :=
  #[none, some 0, some 100, some 250, some 500, some 900]

/-! ## Fatal triggers (handleFatalWs400 / handlePatrolDisconnect /
handleKickoutOrDisconnect and the latch reset in startInternal) -/

/-- The three fatal-signature categories detected on the log stream. -/
inductive FatalKind
  | ws400
  | patrolDisconnect
  | kickout
deriving DecidableEq, Repr

/-- The per-session latch fields plus observation counters for the two side
effects of a fatal handler: the await this.stop() call and the
await this.sendSmtpAlert(...) attempt. -/
structure FatalState where
  fatalWs400Triggered : Bool
  patrolDisconnectTriggered : Bool
  kickoutTriggered : Bool
  lastError : Option String
  stopCount : Nat
  alertCount : Nat
deriving DecidableEq, Repr

def latchOf : FatalKind → FatalState → Bool
  | .ws400, s => s.fatalWs400Triggered
  | .patrolDisconnect, s => s.patrolDisconnectTriggered
  | .kickout, s => s.kickoutTriggered

def setLatch : FatalKind → FatalState → FatalState
  | .ws400, s => { s with fatalWs400Triggered := true }
  | .patrolDisconnect, s => { s with patrolDisconnectTriggered := true }
  | .kickout, s => { s with kickoutTriggered := true }

/-- Common body of the three fatal handlers: if the latch for the category is
already tripped, return immediately; otherwise trip it synchronously, record
the message in lastError, log, then invoke stop() once and attempt one alert. -/
def handleFatal (k : FatalKind) (msg : String) (s : FatalState) : FatalState :=
  if latchOf k s then s
  else
    let s1 := setLatch k s
    let s2 := { s1 with lastError := some msg }
    { s2 with stopCount := s2.stopCount + 1, alertCount := s2.alertCount + 1 }

/-- The latch reset performed at the top of startInternal (all three trigger
fields are assigned false before the new session is wired up). -/
def resetFatalLatches (s : FatalState) : FatalState :=
  { s with
    fatalWs400Triggered := false
    patrolDisconnectTriggered := false
    kickoutTriggered := false }

/-- Feed the same fatal-signature message to its handler n times in a row. -/
def feedFatal (k : FatalKind) (msg : String) : Nat → FatalState → FatalState
  | 0, s => s
  | n + 1, s => feedFatal k msg n (handleFatal k msg s)

/-! ## Lifecycle ordering (startInternal / stopInternal action traces) -/

/-- The externally observable actions of startInternal, one constructor per
statement group, in source order. The tick timer and the ws-closed hook are
installed inside the login-success callback, which runs only after
beginConnect has been issued (and the connection succeeded), so every
LoginStep is causally after every StartStep. -/
inductive StartStep
  | awaitPriorStop
  | resetFatalLatches
  | clearModuleCaches
  | applyIntervalsAndRuntimeConfig
  | loadProto
  | publishRunningStatus
  | removeAllLogListeners
  | removeAllVisitListeners
  | subscribeLog
  | subscribeVisit
  | initStatusBar
  | setStatusPlatform
  | emitRuntimeHint
  | beginConnect
  | wireWsCloseHandlers
  | installStopFn
deriving DecidableEq, BEq, Repr

/-- startInternal in source order: the status object carrying running=true is
published at publishRunningStatus, before the log and visit subscriptions and
before the connection (hence before the tick timer) are wired. -/
def startInternalSteps : List StartStep :=
  [.awaitPriorStop, .resetFatalLatches, .clearModuleCaches,
   .applyIntervalsAndRuntimeConfig, .loadProto, .publishRunningStatus,
   .removeAllLogListeners, .removeAllVisitListeners, .subscribeLog,
   .subscribeVisit, .initStatusBar, .setStatusPlatform, .emitRuntimeHint,
   .beginConnect, .wireWsCloseHandlers, .installStopFn]

/-- The actions of the login-success callback passed to networkMod.connect,
in source order; installTickTimer is the setInterval(..., 1200) wiring. -/
inductive LoginStep
  | setConnectedTrue
  | refreshUserAndProgress
  | logLoginSuccess
  | startFarmLoop
  | maybeStartFriendLoop
  | initTaskSystem
  | scheduleDebugSell
  | startSellLoop
  | installTickTimer
  | installWsClosedHook
deriving DecidableEq, BEq, Repr

def onLoginSuccessSteps : List LoginStep :=
  [.setConnectedTrue, .refreshUserAndProgress, .logLoginSuccess, .startFarmLoop,
   .maybeStartFriendLoop, .initTaskSystem, .scheduleDebugSell, .startSellLoop,
   .installTickTimer, .installWsClosedHook]

/-- The actions of stopInternal in source order. -/
inductive StopStep
  | setRunningFalse
  | setConnectedFalse
  | unsubscribeLog
  | unsubscribeVisit
  | clearPollTimer
  | invokeStopFn
  | clearStopFn
  | clearFriendControl
  | clearBagView
deriving DecidableEq, BEq, Repr

def stopInternalSteps : List StopStep :=
  [.setRunningFalse, .setConnectedFalse, .unsubscribeLog, .unsubscribeVisit,
   .clearPollTimer, .invokeStopFn, .clearStopFn, .clearFriendControl,
   .clearBagView]

/-- a occurs in the trace l, b occurs too, and a comes strictly first. -/
def stepBefore [BEq α] (l : List α) (a b : α) : Bool :=
  l.contains a && l.contains b && decide (l.indexOf a < l.indexOf b)

/-! ## BagIndex cache (getBagIndex) -/

/-- The cache key: the modification timestamps of Plant.json, the seed-shop
export, and goods.txt (a failed stat is reported as 0, still an Int). -/
structure BagIndexMeta where
  plantMtimeMs : Int
  shopMtimeMs : Int
  goodsMtimeMs : Int
deriving DecidableEq, Repr

/-- The cache cell held by the controller: bagIndex and bagIndexMeta start
null. buildCount counts how many times the three sources were re-parsed, so
that re-parsing is observable in the model. -/
structure BagIndexCache (α : Type) where
  bagIndex : Option α
  bagIndexMeta : Option BagIndexMeta
  buildCount : Nat

/-- Shallow embedding of BotController.getBagIndex. The parse-and-merge of the
three sources (which happens below the cache check and is tolerant of parse
failures) is abstracted as the function build from the current timestamps to
the four lookup maps; the cache-check structure is translated verbatim: the
cached object itself is returned, with no rebuild, exactly when both cache
fields are set and all three timestamps are unchanged. -/
def getBagIndex (build : BagIndexMeta → α) (cur : BagIndexMeta)
    (s : BagIndexCache α) : α × BagIndexCache α :=
  match s.bagIndex, s.bagIndexMeta with
  | some idx, some m =>
    if m = cur then (idx, s)
    else
      let b := build cur
      (b, ⟨some b, some cur, s.buildCount + 1⟩)
  | _, _ =>
    let b := build cur
    (b, ⟨some b, some cur, s.buildCount + 1⟩)

/-! ## Visit log (appendVisitRecord) -/

inductive VisitDirection
  | incoming
  | outgoing
deriving DecidableEq, Repr

inductive VisitKind
  | visit
  | steal
  | weed
  | bug
  | water
deriving DecidableEq, Repr

def directionStr : VisitDirection → String
  | .incoming => "incoming"
  | .outgoing => "outgoing"

def visitKindStr : VisitKind → String
  | .visit => "visit"
  | .steal => "steal"
  | .weed => "weed"
  | .bug => "bug"
  | .water => "water"

/-- The payload passed to appendVisitRecord. -/
structure VisitInput where
  ts : String
  direction : VisitDirection
  gid : Int
  name : Option String
  kind : VisitKind
  message : String
deriving DecidableEq, Repr

/-- A stored visit record; id is the deterministic template-string composite. -/
structure VisitItem where
  id : String
  ts : String
  direction : VisitDirection
  gid : Int
  name : Option String
  kind : VisitKind
  message : String
deriving DecidableEq, Repr

/-- id = `${ts}-${direction}-${gid}-${kind}` as interpolated in the source. -/
def visitIdOf (i : VisitInput) : String :=
  i.ts ++ "-" ++ directionStr i.direction ++ "-" ++ toString i.gid ++ "-" ++
    visitKindStr i.kind

def mkVisitItem (i : VisitInput) : VisitItem :=
  ⟨visitIdOf i, i.ts, i.direction, i.gid, i.name, i.kind, i.message⟩

structure VisitsView where
  updatedAt : Nat
  items : List VisitItem
deriving DecidableEq, Repr

def itemsOf : Option VisitsView → List VisitItem
  | some v => v.items
  | none => []

/-- Shallow embedding of BotController.appendVisitRecord: copy the current
list (empty when status.visits is null), push the new record unconditionally,
then keep only the trailing 400 entries via slice(length - 400). -/
def appendVisitRecord (now : Nat) (visits : Option VisitsView)
    (input : VisitInput) : VisitsView :=
  let list := itemsOf visits ++ [mkVisitItem input]
  let keep := if 400 < list.length then list.drop (list.length - 400) else list
  ⟨now, keep⟩

/-- Feed a sequence of visit events through appendVisitRecord in order. -/
def appendAllVisits (now : Nat) (inputs : List VisitInput) (v : VisitsView) :
    VisitsView :=
  inputs.foldl (fun acc i => appendVisitRecord now (some acc) i) v

/-- The last n entries of a list, in order. -/
def takeLastN (n : Nat) (l : List α) : List α :=
  l.drop (l.length - n)

/-- A concrete visit event used in counterexamples and witnesses. -/
def demoVisit : VisitInput :=
  ⟨"2024-01-01T00:00:00Z", .incoming, 42, none, .steal, "偷菜"⟩

/-- 401 distinct sequential visit events (distinct timestamps and gids). -/
def demoVisitRun : List VisitInput :=
  (List.range 401).map
    (fun (n : Nat) => ⟨toString n, .incoming, Int.ofNat n, none, .visit, ""⟩)

/-! ## Bag view resolution (refreshBagView item mapping) -/

/-- Value type of fruitByFruitId: display name, fruit yield count, seed id. -/
structure FruitMeta where
  name : String
  fruitCount : Option Int
  seedId : Option Int
deriving DecidableEq, Repr

/-- The four lookup maps produced by getBagIndex; JS Maps are modelled as
association lists with List.lookup. -/
structure BagIndex where
  seedPriceBySeedId : List (Int × ℚ)
  seedNameBySeedId : List (Int × String)
  fruitByFruitId : List (Int × FruitMeta)
  goodsNameById : List (Int × String)

inductive BagKind
  | gold
  | seed
  | fruit
  | item
deriving DecidableEq, Repr

structure BagItemView where
  id : Int
  kind : BagKind
  name : String
  count : ℚ
  unitPriceGold : Option ℚ
deriving DecidableEq, Repr

/-- JS Math.round: round half toward positive infinity. -/
def jsRound (q : ℚ) : Int :=
  Int.floor (q + 1 / 2)

/-- Math.round(x * 10000) / 10000: round to 4 decimal places. -/
def round4 (q : ℚ) : ℚ :=
  (jsRound (q * 10000) : ℚ) / 10000

/-- seedUnit of the fruit branch: the seed price of the fruit, when its seed
id is known. -/
def fruitSeedUnit (index : BagIndex) (meta : FruitMeta) : Option ℚ :=
  match meta.seedId with
  | some sid => List.lookup sid index.seedPriceBySeedId
  | none => none

/-- unit of the fruit branch: seedUnit / fruitCount rounded to 4 decimals when
seed price and a positive yield count are both known, else null. -/
def fruitUnitPrice (index : BagIndex) (meta : FruitMeta) : Option ℚ :=
  match fruitSeedUnit index meta, meta.fruitCount with
  | some su, some fc =>
    if 0 < fc then some (round4 (su / (fc : ℚ))) else none
  | _, _ => none

/-- Shallow embedding of the per-entry mapping inside refreshBagView: entries
with non-positive id or count are dropped; id 1001 is the gold currency;
then the seed-price map takes priority, then the fruit map, then the generic
goods table with a synthesized placeholder name. -/
def classifyBagItem (index : BagIndex) (id : Int) (count : ℚ) :
    Option BagItemView :=
  if id ≤ 0 then none
  else if count ≤ 0 then none
  else if id = 1001 then some ⟨id, .gold, "金币", count, none⟩
  else
    match List.lookup id index.seedPriceBySeedId with
    | some seedPrice =>
      some ⟨id, .seed,
        (List.lookup id index.seedNameBySeedId).getD ("种子" ++ toString id),
        count, some seedPrice⟩
    | none =>
      match List.lookup id index.fruitByFruitId with
      | some meta => some ⟨id, .fruit, meta.name, count, fruitUnitPrice index meta⟩
      | none =>
        some ⟨id, .item,
          (List.lookup id index.goodsNameById).getD ("物品" ++ toString id),
          count, none⟩

/-- A bag index that maps the currency id 1001 in both the seed-price map and
the fruit map, for the C7 counterexample. -/
def demoBagIndex : BagIndex :=
  ⟨[(1001, 5)], [(1001, "玉米种子")], [(1001, ⟨"玉米", some 2, some 1001⟩)], []⟩

/-- A bag index with an id in both maps (7), a fruit with known seed price and
yield (8), and a fruit with no known seed (9), for the C7 witness. -/
def demoBagIndex2 : BagIndex :=
  ⟨[(7, 30)], [(7, "白萝卜种子")],
   [(7, ⟨"白萝卜", some 3, some 7⟩), (8, ⟨"胡萝卜", some 4, some 7⟩),
    (9, ⟨"无种果", none, none⟩)], []⟩

/-! ## Runtime config store (configStore: toStored / getSecret / set and the
zod schemas LegacyRuntimeConfigSchema / StoredRuntimeConfigSchema /
ApiRuntimeConfigSchema) -/

inductive Platform
  | qq
  | wx
deriving DecidableEq, Repr

/-- The legacy on-disk shape: one single-value interval per loop. -/
structure LegacyDoc where
  selfIntervalSec : Int
  friendIntervalSec : Int
  platform : Platform
deriving DecidableEq, Repr

structure Automation where
  autoHarvest : Bool
  autoFertilize : Bool
  autoWater : Bool
  autoWeed : Bool
  autoBug : Bool
  autoPlant : Bool
  autoTask : Bool
  autoSell : Bool
deriving DecidableEq, Repr

structure Farming where
  forceLowestLevelCrop : Bool
  fixedSeedId : Option Int
deriving DecidableEq, Repr

inductive WallpaperMode
  | online
  | localMode
  | off
deriving DecidableEq, Repr

structure Wallpaper where
  sync : Bool
  mode : WallpaperMode
deriving DecidableEq, Repr

structure UiConfig where
  wallpaper : Option Wallpaper
deriving DecidableEq, Repr

/-- The smtp object; the from and to fields are renamed fromAddr and toAddr
because from is a Lean keyword. -/
structure SmtpConfig where
  enabled : Bool
  host : String
  port : Int
  secure : Bool
  user : String
  pass : Option String
  fromAddr : String
  toAddr : String
deriving DecidableEq, Repr

/-- The current on-disk shape: two min and max interval pairs plus the
optional sections. -/
structure StoredConfig where
  selfIntervalSecMin : Int
  selfIntervalSecMax : Int
  friendIntervalSecMin : Int
  friendIntervalSecMax : Int
  platform : Platform
  automation : Option Automation
  farming : Option Farming
  ui : Option UiConfig
  smtp : Option SmtpConfig
deriving DecidableEq, Repr

/-- An on-disk document: it matches the legacy shape, the current shape, or
neither. -/
inductive RawDoc
  | legacy (d : LegacyDoc)
  | stored (d : StoredConfig)
  | malformed
deriving DecidableEq, Repr

def isLegacyShape : RawDoc → Bool
  | .legacy _ => true
  | _ => false

/-- z.number().int().min(1).max(3600) on an interval field. -/
def intervalOk (v : Int) : Bool :=
  decide (1 ≤ v) && decide (v ≤ 3600)

/-- The field bounds of the smtp sub-schema. -/
def smtpFieldsOk (s : SmtpConfig) : Bool :=
  decide (s.host.length ≤ 200) && decide (0 ≤ s.port) &&
    decide (s.port ≤ 65535) && decide (s.user.length ≤ 200) &&
    (match s.pass with
      | some p => decide (p.length ≤ 500)
      | none => true) &&
    decide (s.fromAddr.length ≤ 500) && decide (s.toAddr.length ≤ 2000)

def farmingOk (f : Farming) : Bool :=
  match f.fixedSeedId with
  | some v => decide (1 ≤ v) && decide (v ≤ 1000000000)
  | none => true

/-- LegacyRuntimeConfigSchema.safeParse succeeds. -/
def legacyValid (d : LegacyDoc) : Bool :=
  intervalOk d.selfIntervalSec && intervalOk d.friendIntervalSec

def farmingSectionOk (d : StoredConfig) : Bool :=
  match d.farming with
  | some f => farmingOk f
  | none => true

def smtpSectionOk (d : StoredConfig) : Bool :=
  match d.smtp with
  | some s => smtpFieldsOk s
  | none => true

/-- The api schema restricts ui.wallpaper.mode to local or off. -/
def uiApiOk (d : StoredConfig) : Bool :=
  match d.ui with
  | some u =>
    match u.wallpaper with
    | some w => decide (w.mode ≠ .online)
    | none => true
  | none => true

/-- StoredRuntimeConfigSchema.safeParse succeeds (the base field bounds). -/
def storedBaseValid (d : StoredConfig) : Bool :=
  intervalOk d.selfIntervalSecMin && intervalOk d.selfIntervalSecMax &&
    intervalOk d.friendIntervalSecMin && intervalOk d.friendIntervalSecMax &&
    farmingSectionOk d && smtpSectionOk d

/-- The legacy migration of ConfigStore.toStored: synthesize min=max=value for
both interval pairs; the optional sections are absent in a legacy document. -/
def migrateLegacy (d : LegacyDoc) : StoredConfig :=
  ⟨d.selfIntervalSec, d.selfIntervalSec, d.friendIntervalSec,
   d.friendIntervalSec, d.platform, none, none, none, none⟩

/-- ConfigStore.toStored: try the legacy schema first and migrate on success;
otherwise try the current schema; otherwise null. A document of one shape
never parses under the other schema (each lacks the other's required
interval fields). -/
def toStored : RawDoc → Option StoredConfig
  | .legacy d => if legacyValid d then some (migrateLegacy d) else none
  | .stored d => if storedBaseValid d then some d else none
  | .malformed => none

def defaultAutomation : Automation :=
  ⟨true, true, true, true, true, true, true, true⟩

/-- The fallback document written by get/getSecret when the stored file does
not parse under either schema. -/
def fallbackConfig : StoredConfig :=
  ⟨10, 10, 1, 1, .qq, some defaultAutomation, some ⟨false, none⟩,
   some ⟨some ⟨true, .localMode⟩⟩, none⟩

/-- ConfigStore.getSecret: parse the file; on failure write the fallback (a
current-shape document) and use it. Returns the in-memory config and the
resulting file content. -/
def getSecretRun (file : RawDoc) : StoredConfig × RawDoc :=
  match toStored file with
  | some s => (s, file)
  | none => (fallbackConfig, .stored fallbackConfig)

/-- The smtp part of the ApiRuntimeConfigSchema superRefine: when alerting is
enabled, host, port, from and to must be present (non-blank, non-zero). -/
def smtpRequiredCheck : Option SmtpConfig → StoredConfig →
    Except String StoredConfig
  | some s, d =>
    if s.enabled then
      if s.host.trim = "" then .error "smtp.host required"
      else if s.port = 0 then .error "smtp.port required"
      else if s.fromAddr.trim = "" then .error "smtp.from required"
      else if s.toAddr.trim = "" then .error "smtp.to required"
      else .ok d
    else .ok d
  | none, d => .ok d

/-- ApiRuntimeConfigSchema.parse: the stored-shape base validation, the ui
wallpaper mode restricted to local/off, then the superRefine checks: min <=
max for both interval pairs, and host/port/from/to required (non-blank,
non-zero) when smtp.enabled. Throws (models as error) on the first issue. -/
def validateApi (d : StoredConfig) : Except String StoredConfig :=
  if ¬ intervalOk d.selfIntervalSecMin then .error "selfIntervalSecMin out of range"
  else if ¬ intervalOk d.selfIntervalSecMax then .error "selfIntervalSecMax out of range"
  else if ¬ intervalOk d.friendIntervalSecMin then .error "friendIntervalSecMin out of range"
  else if ¬ intervalOk d.friendIntervalSecMax then .error "friendIntervalSecMax out of range"
  else if ¬ farmingSectionOk d then .error "farming.fixedSeedId out of range"
  else if ¬ smtpSectionOk d then .error "smtp field out of range"
  else if ¬ uiApiOk d then .error "ui.wallpaper.mode invalid"
  else if d.selfIntervalSecMin > d.selfIntervalSecMax then
    .error "selfIntervalSecMin must be <= selfIntervalSecMax"
  else if d.friendIntervalSecMin > d.friendIntervalSecMax then
    .error "friendIntervalSecMin must be <= friendIntervalSecMax"
  else smtpRequiredCheck d.smtp d

/-- The pass merge inside set: keep the submitted pass only when it is a
non-blank string, else keep the currently stored one. -/
def mergeSmtpPass (parsedPass currentPass : Option String) : Option String :=
  match parsedPass with
  | some p => if p.trim ≠ "" then some p else currentPass
  | none => currentPass

/-- The merged document that ConfigStore.set persists. -/
def mergeConfig (parsed current : StoredConfig) : StoredConfig :=
  { selfIntervalSecMin := parsed.selfIntervalSecMin
    selfIntervalSecMax := parsed.selfIntervalSecMax
    friendIntervalSecMin := parsed.friendIntervalSecMin
    friendIntervalSecMax := parsed.friendIntervalSecMax
    platform := parsed.platform
    automation :=
      match parsed.automation with
      | some a => some a
      | none => current.automation
    farming :=
      match parsed.farming with
      | some f => some ⟨f.forceLowestLevelCrop, f.fixedSeedId⟩
      | none => current.farming
    ui :=
      match parsed.ui with
      | some u =>
        some ⟨match u.wallpaper with
          | some w => some ⟨true, w.mode⟩
          | none =>
            match current.ui with
            | some cu => cu.wallpaper
            | none => none⟩
      | none => current.ui
    smtp :=
      match parsed.smtp with
      | some s =>
        some ⟨s.enabled, s.host, s.port, s.secure, s.user,
          mergeSmtpPass s.pass
            (match current.smtp with
              | some cs => cs.pass
              | none => none),
          s.fromAddr, s.toAddr⟩
      | none => current.smtp }

/-- ConfigStore.set against a file state: parse the delta (throwing before
anything is read or written on a validation failure), read-and-migrate the
current file, merge, and persist the merged current-shape document. Returns
the resulting file content and the outcome. -/
def setRun (file : RawDoc) (delta : StoredConfig) :
    RawDoc × Except String StoredConfig :=
  match validateApi delta with
  | .error e => (file, .error e)
  | .ok parsed =>
    let current := (getSecretRun file).1
    let merged := mergeConfig parsed current
    (.stored merged, .ok merged)

/-- The validation violations named by the spec: an interval pair with
min > max, an interval bound below 1, or alerting enabled while any of
transport host/port/from/to is missing. -/
def violatesValidation (d : StoredConfig) : Prop :=
  d.selfIntervalSecMin > d.selfIntervalSecMax ∨
  d.friendIntervalSecMin > d.friendIntervalSecMax ∨
  d.selfIntervalSecMin < 1 ∨ d.selfIntervalSecMax < 1 ∨
  d.friendIntervalSecMin < 1 ∨ d.friendIntervalSecMax < 1 ∨
  (∃ s, d.smtp = some s ∧ s.enabled = true ∧
    (s.host.trim = "" ∨ s.port = 0 ∨ s.fromAddr.trim = "" ∨ s.toAddr.trim = ""))

/-- A legacy document used in the C8 witness. -/
def demoLegacyDoc : LegacyDoc :=
  ⟨10, 5, .qq⟩

/-- A delta with selfIntervalSecMin > selfIntervalSecMax, for the C9 witness. -/
def demoBadDelta : StoredConfig :=
  ⟨5, 2, 1, 1, .qq, none, none, none, none⟩

/-! ## Status snapshot and stopInternal frame (stopInternal / startInternal
status reset / getStatus) -/

structure UserView where
  gid : Int
  name : String
  level : Int
  gold : Int
  exp : Int
  expProgress : Option ExpProgress
deriving DecidableEq, Repr

structure LandItemView where
  id : Int
  unlocked : Bool
  cropName : Option String
  phase : Option Int
  phaseName : Option String
  timeLeftSec : Option Int
  needWater : Bool
  needWeed : Bool
  needBug : Bool
deriving DecidableEq, Repr

structure LandsView where
  updatedAt : Nat
  total : Nat
  unlocked : Nat
  items : List LandItemView
deriving DecidableEq, Repr

structure BagView where
  updatedAt : Nat
  items : List BagItemView
deriving DecidableEq, Repr

/-- The BotStatus record exposed to external readers. farmSummary is an
opaque object (Record<string, unknown>) modelled by an identifying token. -/
structure BotStatus where
  running : Bool
  connected : Bool
  platform : Platform
  startedAt : Option String
  lastError : Option String
  user : Option UserView
  farmSummary : Option Nat
  lands : Option LandsView
  bag : Option BagView
  visits : Option VisitsView
deriving DecidableEq

/-- What the farm module reports at the moment updateFarmViews runs: the last
farm summary and the rendered lands view (the buildLandsView output, whose
updatedAt is the wall clock at render time). -/
structure FarmEnv where
  farmSummary : Option Nat
  landsView : Option LandsView
deriving DecidableEq

/-- updateFarmViews: overwrite farmSummary and lands from the farm module
snapshot, unconditionally (no running check). -/
def updateFarmViews (env : FarmEnv) (st : BotStatus) : BotStatus :=
  { st with farmSummary := env.farmSummary, lands := env.landsView }

/-- The controller fields touched by stopInternal; the Booleans model whether
the corresponding handle (subscription, timer, stopFn, ws-closed hook,
friend control) is currently installed. -/
structure ControllerState where
  status : BotStatus
  unsubLog : Bool
  unsubVisit : Bool
  userPollTimer : Bool
  stopFn : Bool
  onWsClosed : Bool
  friendControl : Bool
deriving DecidableEq

/-- The stopFn installed by startInternal: stops the sell/task/friend/farm
loops and the status bar, calls networkMod.cleanup(), then
networkMod.getWs()?.close(). The close method was wrapped in startInternal to
invoke this.onWsClosed (which runs updateFarmViews) before the original
close, so when a ws handle is still returned after cleanup and the hook is
installed, the farm views are refreshed one last time during teardown. -/
def runStopFn (env : FarmEnv) (wsAliveAfterCleanup : Bool)
    (c : ControllerState) : ControllerState :=
  if c.stopFn && wsAliveAfterCleanup && c.onWsClosed then
    { c with status := updateFarmViews env c.status }
  else c

/-- Shallow embedding of BotController.stopInternal, in source order:
running=false and connected=false first, unsubscribe both listeners, clear
the poll timer, await stopFn (see runStopFn), drop stopFn and friendControl,
and finally clear status.bag. -/
def stopInternal (env : FarmEnv) (wsAliveAfterCleanup : Bool)
    (c : ControllerState) : ControllerState :=
  let c1 := { c with status := { c.status with running := false, connected := false } }
  let c2 := { c1 with unsubLog := false, unsubVisit := false }
  let c3 := { c2 with userPollTimer := false }
  let c4 := runStopFn env wsAliveAfterCleanup c3
  let c5 := { c4 with stopFn := false }
  let c6 := { c5 with friendControl := false }
  { c6 with status := { c6.status with bag := none } }

/-- getStatus returns a shallow copy of the live status record. -/
def getStatus (c : ControllerState) : BotStatus :=
  c.status

/-- The fresh status object published by startInternal (source line 714):
running=true, connected=false, startedAt set, farmSummary/bag null, empty
visit list; the user, lands and lastError keys are absent (undefined). -/
def startStatusReset (platform : Platform) (startedAt : String) (now : Nat) :
    BotStatus :=
  ⟨true, false, platform, some startedAt, none, none, none, none, none,
   some ⟨now, []⟩⟩

/-- A running controller with populated views, for the C10 counterexample. -/
def demoPreStopController : ControllerState :=
  ⟨⟨true, true, .qq, some "2024-01-01T00:00:00Z", none,
    some ⟨1, "player", 3, 100, 260, some ⟨10, 250⟩⟩, some 1,
    some ⟨5, 2, 1, []⟩, some ⟨7, []⟩, some ⟨3, []⟩⟩,
   true, true, true, true, true, true⟩

/-- A farm snapshot rendered at a later wall-clock time than the stored
lands view of demoPreStopController. -/
def demoStopEnv : FarmEnv :=
  ⟨some 2, some ⟨9, 2, 1, []⟩⟩

end QQFarm

/-- Claim C1: with starts=[_,0,100,250,500,900], computeExpProgress(3, 260)
returns {current:10, needed:250} through the fast path (260 lies in
[starts[3], starts[4])), and computeExpProgress(3, 80) fails the fast path,
the binary search lands on bracket 1, and the result is
{current:80, needed:100}. -/
theorem c1_level_progress_fast_and_fallback :
    QQFarm.computeExpProgress QQFarm.demoStarts 3 260 = some ⟨10, 250⟩ ∧
    QQFarm.fastPathHolds QQFarm.demoStarts 3 260 = true ∧
    QQFarm.computeExpProgress QQFarm.demoStarts 3 80 = some ⟨80, 100⟩ ∧
    QQFarm.fastPathHolds QQFarm.demoStarts 3 80 = false ∧
    QQFarm.expSearch QQFarm.demoStarts 80 1 (QQFarm.maxLevelOf QQFarm.demoStarts) = 1 := by
  decide

/-- Claim C2: feeding the same fatal-signature message five times in one
session trips the latch once: exactly one stop() invocation and exactly one
alert attempt; a fresh start() resets the latch, so the same signature fires
again (a further stop) in the new session. -/
theorem c2_fatal_trigger_idempotent (k : QQFarm.FatalKind) (msg : String)
    (s : QQFarm.FatalState) (h : QQFarm.latchOf k s = false) :
    (QQFarm.feedFatal k msg 5 s).stopCount = s.stopCount + 1 ∧
    (QQFarm.feedFatal k msg 5 s).alertCount = s.alertCount + 1 ∧
    QQFarm.latchOf k (QQFarm.resetFatalLatches (QQFarm.feedFatal k msg 5 s)) = false ∧
    (QQFarm.handleFatal k msg
      (QQFarm.resetFatalLatches (QQFarm.feedFatal k msg 5 s))).stopCount =
        s.stopCount + 2 := by
  obtain ⟨a, b, c, e, sc, ac⟩ := s
  cases k <;>
    (simp only [QQFarm.latchOf] at h
     subst h
     simp [QQFarm.feedFatal, QQFarm.handleFatal, QQFarm.latchOf, QQFarm.setLatch,
       QQFarm.resetFatalLatches])

/-- Witness for C2 at a concrete fresh session state. -/
theorem c2_fatal_trigger_idempotent_witness :
    QQFarm.latchOf .ws400 ⟨false, false, false, none, 0, 0⟩ = false ∧
    (QQFarm.feedFatal .ws400 "Unexpected server response: 400" 5
      ⟨false, false, false, none, 0, 0⟩).stopCount = 0 + 1 :=
  ⟨by decide,
    (c2_fatal_trigger_idempotent .ws400 "Unexpected server response: 400"
      ⟨false, false, false, none, 0, 0⟩ (by decide)).1⟩

/-- Counterexample to claim C3 as stated: in startInternal the event-stream
subscriptions do NOT precede the running=true flip; the status object with
running=true is published (source line 714) before botEvents.on("log"/"visit")
(lines 745/759) and before the connection (so also before the tick timer,
which is wired only in the login callback). -/
theorem c3_running_flip_order_counterexample :
    QQFarm.stepBefore QQFarm.startInternalSteps .subscribeLog .publishRunningStatus = false ∧
    QQFarm.stepBefore QQFarm.startInternalSteps .subscribeVisit .publishRunningStatus = false ∧
    QQFarm.startInternalSteps.indexOf .publishRunningStatus = 5 ∧
    QQFarm.startInternalSteps.indexOf .subscribeLog = 8 := by
  decide

/-- Claim C3, amended: external observers still see only the two states
Stopped and Running, but during start the running flag flips to true BEFORE
the event-stream subscriptions, the connection, and the tick timer are wired
(immediately after the proto load, when the fresh status object is published);
during stop, flipping running=false is the very first action, before any
teardown. -/
theorem c3_two_visible_states_amended :
    QQFarm.stepBefore QQFarm.startInternalSteps .publishRunningStatus .subscribeLog = true ∧
    QQFarm.stepBefore QQFarm.startInternalSteps .publishRunningStatus .subscribeVisit = true ∧
    QQFarm.stepBefore QQFarm.startInternalSteps .publishRunningStatus .beginConnect = true ∧
    QQFarm.onLoginSuccessSteps.contains .installTickTimer = true ∧
    QQFarm.stopInternalSteps.head? = some .setRunningFalse ∧
    QQFarm.stepBefore QQFarm.stopInternalSteps .setRunningFalse .unsubscribeLog = true ∧
    QQFarm.stepBefore QQFarm.stopInternalSteps .setRunningFalse .clearPollTimer = true ∧
    QQFarm.stepBefore QQFarm.stopInternalSteps .setRunningFalse .invokeStopFn = true := by
  decide

/-- Claim C4: for consecutive getBagIndex builds, if none of the three source
timestamps changed, the second build returns the identical previously built
index object and does not re-parse (the whole cache cell, including the build
counter, is untouched); if at least one of the three timestamps changed, the
index is rebuilt (the build counter increments and the fresh parse is
returned and cached). -/
theorem c4_bag_index_cache_stability {α : Type} (build : QQFarm.BagIndexMeta → α)
    (cur cur2 : QQFarm.BagIndexMeta) (s : QQFarm.BagIndexCache α)
    (hdiff : cur2.plantMtimeMs ≠ cur.plantMtimeMs ∨
      cur2.shopMtimeMs ≠ cur.shopMtimeMs ∨ cur2.goodsMtimeMs ≠ cur.goodsMtimeMs) :
    QQFarm.getBagIndex build cur (QQFarm.getBagIndex build cur s).2 =
      QQFarm.getBagIndex build cur s ∧
    (QQFarm.getBagIndex build cur2 (QQFarm.getBagIndex build cur s).2).2.buildCount =
      (QQFarm.getBagIndex build cur s).2.buildCount + 1 ∧
    (QQFarm.getBagIndex build cur2 (QQFarm.getBagIndex build cur s).2).1 = build cur2 := by
  have hcc : ¬ (cur = cur2) := by
    intro h
    subst h
    rcases hdiff with h | h | h <;> exact h rfl
  obtain ⟨idx, meta, n⟩ := s
  cases idx with
  | none => cases meta <;> simp [QQFarm.getBagIndex, hcc]
  | some i =>
    cases meta with
    | none => simp [QQFarm.getBagIndex, hcc]
    | some m =>
      by_cases hm : m = cur
      · subst hm
        simp [QQFarm.getBagIndex, hcc]
      · simp [QQFarm.getBagIndex, hm, hcc]

/-- Witness for C4 at concrete timestamps: first build caches, the repeat with
unchanged timestamps is stable, and bumping one timestamp rebuilds. -/
theorem c4_bag_index_cache_stability_witness :
    ((⟨2, 3, 4⟩ : QQFarm.BagIndexMeta).plantMtimeMs ≠
      (⟨1, 3, 4⟩ : QQFarm.BagIndexMeta).plantMtimeMs ∨
     (⟨2, 3, 4⟩ : QQFarm.BagIndexMeta).shopMtimeMs ≠
      (⟨1, 3, 4⟩ : QQFarm.BagIndexMeta).shopMtimeMs ∨
     (⟨2, 3, 4⟩ : QQFarm.BagIndexMeta).goodsMtimeMs ≠
      (⟨1, 3, 4⟩ : QQFarm.BagIndexMeta).goodsMtimeMs) ∧
    QQFarm.getBagIndex (fun m => m.plantMtimeMs) ⟨1, 3, 4⟩
        (QQFarm.getBagIndex (fun m => m.plantMtimeMs) ⟨1, 3, 4⟩ ⟨none, none, 0⟩).2 =
      QQFarm.getBagIndex (fun m => m.plantMtimeMs) ⟨1, 3, 4⟩ ⟨none, none, 0⟩ :=
  ⟨Or.inl (by decide),
    (c4_bag_index_cache_stability (fun m => m.plantMtimeMs) ⟨1, 3, 4⟩ ⟨2, 3, 4⟩
      ⟨none, none, 0⟩ (Or.inl (by decide))).1⟩

theorem takeLastN_eq_reverse {α : Type} (n : Nat) (l : List α) :
    QQFarm.takeLastN n l = (l.reverse.take n).reverse := by
  simp [QQFarm.takeLastN, List.take_reverse]

theorem takeLastN_length_le {α : Type} (n : Nat) (l : List α) :
    (QQFarm.takeLastN n l).length ≤ n := by
  simp only [QQFarm.takeLastN, List.length_drop]
  omega

theorem takeLastN_of_le {α : Type} (n : Nat) (l : List α) (h : l.length ≤ n) :
    QQFarm.takeLastN n l = l := by
  have : l.length - n = 0 := by omega
  simp [QQFarm.takeLastN, this]

theorem takeLastN_append_left {α : Type} (n : Nat) (a b : List α) :
    QQFarm.takeLastN n (QQFarm.takeLastN n a ++ b) = QQFarm.takeLastN n (a ++ b) := by
  simp only [takeLastN_eq_reverse, List.reverse_append, List.reverse_reverse,
    List.take_append_eq_append_take, List.take_take, List.length_reverse]
  rw [min_eq_left (Nat.sub_le n b.length)]

theorem appendVisitRecord_items (now : Nat) (v : Option QQFarm.VisitsView)
    (i : QQFarm.VisitInput) :
    (QQFarm.appendVisitRecord now v i).items =
      QQFarm.takeLastN 400 (QQFarm.itemsOf v ++ [QQFarm.mkVisitItem i]) := by
  simp only [QQFarm.appendVisitRecord]
  split
  · rfl
  · rw [takeLastN_of_le]
    omega

theorem appendAllVisits_items (now : Nat) (inputs : List QQFarm.VisitInput) :
    ∀ v : QQFarm.VisitsView, v.items.length ≤ 400 →
      (QQFarm.appendAllVisits now inputs v).items =
        QQFarm.takeLastN 400 (v.items ++ inputs.map QQFarm.mkVisitItem) := by
  induction inputs with
  | nil =>
    intro v hv
    simp [QQFarm.appendAllVisits, takeLastN_of_le 400 v.items hv]
  | cons i rest ih =>
    intro v hv
    have step : QQFarm.appendAllVisits now (i :: rest) v =
        QQFarm.appendAllVisits now rest (QQFarm.appendVisitRecord now (some v) i) := by
      simp [QQFarm.appendAllVisits]
    rw [step, ih _ (by
      rw [appendVisitRecord_items]
      exact takeLastN_length_le 400 _)]
    rw [appendVisitRecord_items]
    simp only [QQFarm.itemsOf]
    rw [takeLastN_append_left]
    simp

/-- Counterexample to claim C5 as stated: appendVisitRecord performs no
duplicate check. Appending an event whose deterministic composite id equals
the id of a record already in the log does NOT leave the stored list
unchanged: the duplicate is pushed as a second record. -/
theorem c5_duplicate_id_counterexample :
    (QQFarm.mkVisitItem QQFarm.demoVisit).id ∈
      (QQFarm.appendVisitRecord 0 none QQFarm.demoVisit).items.map
        QQFarm.VisitItem.id ∧
    (QQFarm.appendVisitRecord 1
        (some (QQFarm.appendVisitRecord 0 none QQFarm.demoVisit))
        QQFarm.demoVisit).items.length = 2 ∧
    (QQFarm.appendVisitRecord 0 none QQFarm.demoVisit).items.length = 1 ∧
    (QQFarm.appendVisitRecord 1
        (some (QQFarm.appendVisitRecord 0 none QQFarm.demoVisit))
        QQFarm.demoVisit).items ≠
      (QQFarm.appendVisitRecord 0 none QQFarm.demoVisit).items := by
  decide

/-- Claim C5, amended: a visit event whose composite id collides with a
record already in the log is nevertheless appended (below capacity): the
stored list becomes the old list plus the duplicate at the end, the first
record being kept as well; no id-based deduplication happens. -/
theorem c5_duplicate_id_appended (now : Nat) (v : QQFarm.VisitsView)
    (i : QQFarm.VisitInput)
    (hdup : (QQFarm.mkVisitItem i).id ∈ v.items.map QQFarm.VisitItem.id)
    (hlen : v.items.length < 400) :
    (QQFarm.appendVisitRecord now (some v) i).items =
      v.items ++ [QQFarm.mkVisitItem i] := by
  simp only [QQFarm.appendVisitRecord, QQFarm.itemsOf]
  split
  · rename_i hgt
    simp only [List.length_append, List.length_singleton] at hgt
    omega
  · rfl

/-- Witness for the amended C5 at a concrete duplicate event. -/
theorem c5_duplicate_id_appended_witness :
    ((QQFarm.mkVisitItem QQFarm.demoVisit).id ∈
      (QQFarm.appendVisitRecord 0 none QQFarm.demoVisit).items.map
        QQFarm.VisitItem.id) ∧
    (QQFarm.appendVisitRecord 0 none QQFarm.demoVisit).items.length < 400 ∧
    (QQFarm.appendVisitRecord 1
        (some (QQFarm.appendVisitRecord 0 none QQFarm.demoVisit))
        QQFarm.demoVisit).items =
      (QQFarm.appendVisitRecord 0 none QQFarm.demoVisit).items ++
        [QQFarm.mkVisitItem QQFarm.demoVisit] :=
  ⟨by decide, by decide,
    c5_duplicate_id_appended 1 (QQFarm.appendVisitRecord 0 none QQFarm.demoVisit)
      QQFarm.demoVisit (by decide) (by decide)⟩

/-- Claim C6: inserting 401 sequential visit records into an empty visit log
leaves exactly 400 records: the oldest record is evicted and insertion order
is preserved among the remaining 400 (the result is the input sequence of
records with the first one dropped). -/
theorem c6_visit_ring_buffer_bound (now : Nat) (inputs : List QQFarm.VisitInput)
    (h : inputs.length = 401) :
    (QQFarm.appendAllVisits now inputs ⟨0, []⟩).items =
      (inputs.map QQFarm.mkVisitItem).drop 1 ∧
    (QQFarm.appendAllVisits now inputs ⟨0, []⟩).items.length = 400 := by
  have base := appendAllVisits_items now inputs ⟨0, []⟩ (by simp)
  simp only [List.nil_append] at base
  refine ⟨?_, ?_⟩ <;> rw [base] <;>
    simp [QQFarm.takeLastN, List.length_map, List.length_drop, h]

/-- Witness for C6: the concrete run of 401 distinct sequential records. -/
theorem c6_visit_ring_buffer_bound_witness :
    QQFarm.demoVisitRun.length = 401 ∧
    (QQFarm.appendAllVisits 0 QQFarm.demoVisitRun ⟨0, []⟩).items.length = 400 :=
  ⟨by rw [QQFarm.demoVisitRun, List.length_map, List.length_range],
    (c6_visit_ring_buffer_bound 0 QQFarm.demoVisitRun
      (by rw [QQFarm.demoVisitRun, List.length_map, List.length_range])).2⟩

/-- Counterexample to claim C7 as stated: the fixed currency id 1001 is
checked before the seed-price map, so an inventory id present in BOTH the
seed-price map and the fruit map can still resolve as gold rather than seed
when that id is 1001. -/
theorem c7_bag_pricing_counterexample :
    (List.lookup 1001 QQFarm.demoBagIndex.seedPriceBySeedId).isSome = true ∧
    (List.lookup 1001 QQFarm.demoBagIndex.fruitByFruitId).isSome = true ∧
    (QQFarm.classifyBagItem QQFarm.demoBagIndex 1001 1).map
      QQFarm.BagItemView.kind = some .gold ∧
    (QQFarm.classifyBagItem QQFarm.demoBagIndex 1001 1).map
      QQFarm.BagItemView.kind ≠ some .seed := by
  decide

/-- Claim C7, amended: for every inventory entry with positive id and count
whose id is NOT the fixed currency id 1001, an id present in the seed-price
map resolves as kind=seed with the seed price (even if it is also in the
fruit map); an id resolved through the fruit map has kind=fruit with unit
price seedPrice / yieldCount rounded to 4 decimals when the seed price and a
positive yield count are both known, and null otherwise. -/
theorem c7_bag_pricing_priority (idx : QQFarm.BagIndex) (id : Int) (count : ℚ) :
    (∀ sp : ℚ, 0 < id → id ≠ 1001 → 0 < count →
      List.lookup id idx.seedPriceBySeedId = some sp →
      (QQFarm.classifyBagItem idx id count).map QQFarm.BagItemView.kind =
        some .seed ∧
      (QQFarm.classifyBagItem idx id count).map QQFarm.BagItemView.unitPriceGold =
        some (some sp)) ∧
    (∀ meta : QQFarm.FruitMeta, 0 < id → id ≠ 1001 → 0 < count →
      List.lookup id idx.seedPriceBySeedId = none →
      List.lookup id idx.fruitByFruitId = some meta →
      (QQFarm.classifyBagItem idx id count).map QQFarm.BagItemView.kind =
        some .fruit ∧
      (QQFarm.classifyBagItem idx id count).map QQFarm.BagItemView.unitPriceGold =
        some (QQFarm.fruitUnitPrice idx meta)) ∧
    (∀ (meta : QQFarm.FruitMeta) (sp : ℚ) (fc : Int),
      QQFarm.fruitSeedUnit idx meta = some sp → meta.fruitCount = some fc →
      0 < fc →
      QQFarm.fruitUnitPrice idx meta = some (QQFarm.round4 (sp / (fc : ℚ)))) ∧
    (∀ meta : QQFarm.FruitMeta,
      (∀ (sp : ℚ) (fc : Int),
        ¬(QQFarm.fruitSeedUnit idx meta = some sp ∧ meta.fruitCount = some fc ∧
          0 < fc)) →
      QQFarm.fruitUnitPrice idx meta = none) := by
  refine ⟨?_, ?_, ?_, ?_⟩
  · intro sp hid hne hc hl
    have h1 : ¬ id ≤ 0 := not_le.mpr hid
    have h2 : ¬ count ≤ 0 := not_le.mpr hc
    simp [QQFarm.classifyBagItem, h1, h2, hne, hl]
  · intro meta hid hne hc hseed hfruit
    have h1 : ¬ id ≤ 0 := not_le.mpr hid
    have h2 : ¬ count ≤ 0 := not_le.mpr hc
    simp [QQFarm.classifyBagItem, h1, h2, hne, hseed, hfruit]
  · intro meta sp fc hsu hfc hpos
    simp [QQFarm.fruitUnitPrice, hsu, hfc, hpos]
  · intro meta hnone
    unfold QQFarm.fruitUnitPrice
    split
    · rename_i su fc hsu hfc
      rw [if_neg]
      intro hpos
      exact hnone su fc ⟨hsu, hfc, hpos⟩
    · rfl

/-- Witness for the amended C7: id 7 is in both maps and resolves as seed
with price 30; id 8 resolves as fruit with unit price 30 / 4 rounded to 4
decimals; the fruit with no known seed has a null unit price. -/
theorem c7_bag_pricing_priority_witness :
    (QQFarm.classifyBagItem QQFarm.demoBagIndex2 7 2).map
      QQFarm.BagItemView.kind = some .seed ∧
    (QQFarm.classifyBagItem QQFarm.demoBagIndex2 7 2).map
      QQFarm.BagItemView.unitPriceGold = some (some 30) ∧
    (QQFarm.classifyBagItem QQFarm.demoBagIndex2 8 1).map
      QQFarm.BagItemView.kind = some .fruit ∧
    QQFarm.fruitUnitPrice QQFarm.demoBagIndex2 ⟨"胡萝卜", some 4, some 7⟩ =
      some (QQFarm.round4 (30 / ((4 : Int) : ℚ))) ∧
    QQFarm.fruitUnitPrice QQFarm.demoBagIndex2 ⟨"无种果", none, none⟩ = none :=
  ⟨((c7_bag_pricing_priority QQFarm.demoBagIndex2 7 2).1 30 (by decide)
      (by decide) (by decide) (by rfl)).1,
   ((c7_bag_pricing_priority QQFarm.demoBagIndex2 7 2).1 30 (by decide)
      (by decide) (by decide) (by rfl)).2,
   ((c7_bag_pricing_priority QQFarm.demoBagIndex2 8 1).2.1 ⟨"胡萝卜", some 4, some 7⟩
      (by decide) (by decide) (by decide) (by rfl) (by rfl)).1,
   (c7_bag_pricing_priority QQFarm.demoBagIndex2 8 1).2.2.1
      ⟨"胡萝卜", some 4, some 7⟩ 30 4 (by rfl) (by rfl) (by decide),
   (c7_bag_pricing_priority QQFarm.demoBagIndex2 8 1).2.2.2
      ⟨"无种果", none, none⟩
      (by intro sp fc h; simp [QQFarm.fruitSeedUnit] at h)⟩

theorem validateApi_ok_conditions (d p : QQFarm.StoredConfig)
    (h : QQFarm.validateApi d = .ok p) :
    QQFarm.intervalOk d.selfIntervalSecMin = true ∧
    QQFarm.intervalOk d.selfIntervalSecMax = true ∧
    QQFarm.intervalOk d.friendIntervalSecMin = true ∧
    QQFarm.intervalOk d.friendIntervalSecMax = true ∧
    d.selfIntervalSecMin ≤ d.selfIntervalSecMax ∧
    d.friendIntervalSecMin ≤ d.friendIntervalSecMax ∧
    (∀ s, d.smtp = some s → s.enabled = true →
      s.host.trim ≠ "" ∧ s.port ≠ 0 ∧ s.fromAddr.trim ≠ "" ∧
        s.toAddr.trim ≠ "") := by
  unfold QQFarm.validateApi at h
  have k1 : QQFarm.intervalOk d.selfIntervalSecMin = true := by
    by_contra k
    rw [if_pos k] at h
    cases h
  rw [if_neg (not_not_intro k1)] at h
  have k2 : QQFarm.intervalOk d.selfIntervalSecMax = true := by
    by_contra k
    rw [if_pos k] at h
    cases h
  rw [if_neg (not_not_intro k2)] at h
  have k3 : QQFarm.intervalOk d.friendIntervalSecMin = true := by
    by_contra k
    rw [if_pos k] at h
    cases h
  rw [if_neg (not_not_intro k3)] at h
  have k4 : QQFarm.intervalOk d.friendIntervalSecMax = true := by
    by_contra k
    rw [if_pos k] at h
    cases h
  rw [if_neg (not_not_intro k4)] at h
  have k5 : QQFarm.farmingSectionOk d = true := by
    by_contra k
    rw [if_pos k] at h
    cases h
  rw [if_neg (not_not_intro k5)] at h
  have k6 : QQFarm.smtpSectionOk d = true := by
    by_contra k
    rw [if_pos k] at h
    cases h
  rw [if_neg (not_not_intro k6)] at h
  have k7 : QQFarm.uiApiOk d = true := by
    by_contra k
    rw [if_pos k] at h
    cases h
  rw [if_neg (not_not_intro k7)] at h
  have k8 : ¬ d.selfIntervalSecMin > d.selfIntervalSecMax := by
    intro k
    rw [if_pos k] at h
    cases h
  rw [if_neg k8] at h
  have k9 : ¬ d.friendIntervalSecMin > d.friendIntervalSecMax := by
    intro k
    rw [if_pos k] at h
    cases h
  rw [if_neg k9] at h
  refine ⟨k1, k2, k3, k4, by omega, by omega, ?_⟩
  intro s hs hen
  rw [hs] at h
  simp only [QQFarm.smtpRequiredCheck] at h
  rw [if_pos hen] at h
  have g1 : s.host.trim ≠ "" := by
    intro k
    rw [if_pos k] at h
    cases h
  rw [if_neg g1] at h
  have g2 : s.port ≠ 0 := by
    intro k
    rw [if_pos k] at h
    cases h
  rw [if_neg g2] at h
  have g3 : s.fromAddr.trim ≠ "" := by
    intro k
    rw [if_pos k] at h
    cases h
  rw [if_neg g3] at h
  have g4 : s.toAddr.trim ≠ "" := by
    intro k
    rw [if_pos k] at h
    cases h
  exact ⟨g1, g2, g3, g4⟩

/-- Claim C8: a stored document matching the legacy single-interval shape
reads back as an in-memory configuration with min=max=value for both interval
pairs, and a set never persists the legacy shape: on success the written file
is the current-shape merged document, on failure the file is untouched, and
the fallback write of a read is also current-shape. -/
theorem c8_legacy_migration_round_trip (d : QQFarm.LegacyDoc) (file : QQFarm.RawDoc)
    (delta : QQFarm.StoredConfig) (h : QQFarm.legacyValid d = true) :
    QQFarm.toStored (.legacy d) = some (QQFarm.migrateLegacy d) ∧
    (QQFarm.migrateLegacy d).selfIntervalSecMin = d.selfIntervalSec ∧
    (QQFarm.migrateLegacy d).selfIntervalSecMax = d.selfIntervalSec ∧
    (QQFarm.migrateLegacy d).friendIntervalSecMin = d.friendIntervalSec ∧
    (QQFarm.migrateLegacy d).friendIntervalSecMax = d.friendIntervalSec ∧
    (∀ r, (QQFarm.setRun file delta).2 = .ok r →
      (QQFarm.setRun file delta).1 = .stored r) ∧
    (∀ e, (QQFarm.setRun file delta).2 = .error e →
      (QQFarm.setRun file delta).1 = file) ∧
    ((QQFarm.getSecretRun file).2 = file ∨
      (QQFarm.getSecretRun file).2 = .stored QQFarm.fallbackConfig) := by
  refine ⟨by simp [QQFarm.toStored, h], rfl, rfl, rfl, rfl, ?_, ?_, ?_⟩
  · intro r hr
    unfold QQFarm.setRun at hr ⊢
    cases hv : QQFarm.validateApi delta with
    | error e => rw [hv] at hr; cases hr
    | ok parsed =>
      rw [hv] at hr
      cases hr
      rfl
  · intro e he
    unfold QQFarm.setRun at he ⊢
    cases hv : QQFarm.validateApi delta with
    | error e2 => rfl
    | ok parsed => rw [hv] at he; cases he
  · unfold QQFarm.getSecretRun
    cases ht : QQFarm.toStored file with
    | some s => left; rfl
    | none => right; rfl

/-- Witness for C8: the concrete legacy document (10, 5, qq) migrates to
min=max, and a concrete valid set against a malformed file persists the
current-shape merged document. -/
theorem c8_legacy_migration_round_trip_witness :
    QQFarm.legacyValid QQFarm.demoLegacyDoc = true ∧
    QQFarm.toStored (.legacy QQFarm.demoLegacyDoc) =
      some (QQFarm.migrateLegacy QQFarm.demoLegacyDoc) ∧
    (QQFarm.migrateLegacy QQFarm.demoLegacyDoc).selfIntervalSecMax = 10 ∧
    ((QQFarm.getSecretRun (.legacy QQFarm.demoLegacyDoc)).2 =
        .legacy QQFarm.demoLegacyDoc ∨
      (QQFarm.getSecretRun (.legacy QQFarm.demoLegacyDoc)).2 =
        .stored QQFarm.fallbackConfig) :=
  ⟨by decide,
    (c8_legacy_migration_round_trip QQFarm.demoLegacyDoc .malformed
      QQFarm.fallbackConfig (by decide)).1,
    by decide,
    (c8_legacy_migration_round_trip QQFarm.demoLegacyDoc
      (.legacy QQFarm.demoLegacyDoc) QQFarm.fallbackConfig (by decide)).2.2.2.2.2.2.2⟩

/-- Claim C9: a configuration delta that violates validation (an interval
pair with min > max, an interval bound below 1, or alerting enabled with a
missing transport host/port/from/to) is rejected by set with a descriptive
reason, and nothing is written: the stored file, hence the configuration in
effect, is unchanged. -/
theorem c9_invalid_config_rejected (file : QQFarm.RawDoc)
    (d : QQFarm.StoredConfig) (h : QQFarm.violatesValidation d) :
    (QQFarm.setRun file d).1 = file ∧
    ∃ e, (QQFarm.setRun file d).2 = Except.error e := by
  cases hv : QQFarm.validateApi d with
  | error e =>
    constructor
    · unfold QQFarm.setRun
      rw [hv]
    · exact ⟨e, by unfold QQFarm.setRun; rw [hv]⟩
  | ok p =>
    exfalso
    obtain ⟨k1, k2, k3, k4, k5, k6, k7⟩ := validateApi_ok_conditions d p hv
    simp only [QQFarm.intervalOk, Bool.and_eq_true, decide_eq_true_eq] at k1 k2 k3 k4
    rcases h with hh | hh | hh | hh | hh | hh | ⟨s, hs, hen, hmiss⟩
    · omega
    · omega
    · omega
    · omega
    · omega
    · omega
    · obtain ⟨g1, g2, g3, g4⟩ := k7 s hs hen
      rcases hmiss with m | m | m | m
      · exact g1 m
      · exact g2 m
      · exact g3 m
      · exact g4 m

/-- Witness for C9: a delta with selfIntervalSecMin = 5 greater than
selfIntervalSecMax = 2 is rejected and the file stays unchanged. -/
theorem c9_invalid_config_rejected_witness :
    QQFarm.violatesValidation QQFarm.demoBadDelta ∧
    (QQFarm.setRun (.stored QQFarm.fallbackConfig) QQFarm.demoBadDelta).1 =
      .stored QQFarm.fallbackConfig ∧
    ∃ e, (QQFarm.setRun (.stored QQFarm.fallbackConfig)
      QQFarm.demoBadDelta).2 = Except.error e :=
  ⟨Or.inl (by decide),
    (c9_invalid_config_rejected (.stored QQFarm.fallbackConfig)
      QQFarm.demoBadDelta (Or.inl (by decide))).1,
    (c9_invalid_config_rejected (.stored QQFarm.fallbackConfig)
      QQFarm.demoBadDelta (Or.inl (by decide))).2⟩

/-- Counterexample to claim C10 as stated: stop() clears bag to null and does
not itself assign lands or farmSummary, but its teardown calls the wrapped
socket close, whose ws-closed hook reruns updateFarmViews; when the network
module still hands out the socket after cleanup(), lands and farmSummary are
overwritten with a freshly rendered snapshot instead of keeping their
pre-stop values. -/
theorem c10_stop_frame_counterexample :
    (QQFarm.stopInternal QQFarm.demoStopEnv true
      QQFarm.demoPreStopController).status.bag = none ∧
    (QQFarm.stopInternal QQFarm.demoStopEnv true
        QQFarm.demoPreStopController).status.lands ≠
      QQFarm.demoPreStopController.status.lands ∧
    (QQFarm.stopInternal QQFarm.demoStopEnv true
        QQFarm.demoPreStopController).status.farmSummary ≠
      QQFarm.demoPreStopController.status.farmSummary := by
  decide

/-- Claim C10, amended: after stop() the bag view is null and running and
connected are false; visits, user, startedAt and lastError always keep their
pre-stop values and remain visible through getStatus(); lands and farmSummary
keep their pre-stop values unless the teardown fires the ws-closed hook (an
installed stopFn and hook plus a socket still returned after cleanup), in
which case they hold one final refresh of the farm snapshot; the next start()
publishes a fresh status with user, lands, lastError, farmSummary and bag
cleared and an empty visit list. -/
theorem c10_stop_frame (env : QQFarm.FarmEnv) (ws : Bool)
    (c : QQFarm.ControllerState) (p : QQFarm.Platform) (a : String) (n : Nat) :
    (QQFarm.stopInternal env ws c).status.bag = none ∧
    (QQFarm.stopInternal env ws c).status.running = false ∧
    (QQFarm.stopInternal env ws c).status.connected = false ∧
    (QQFarm.stopInternal env ws c).status.visits = c.status.visits ∧
    (QQFarm.stopInternal env ws c).status.user = c.status.user ∧
    (QQFarm.stopInternal env ws c).status.startedAt = c.status.startedAt ∧
    (QQFarm.stopInternal env ws c).status.lastError = c.status.lastError ∧
    QQFarm.getStatus (QQFarm.stopInternal env ws c) =
      (QQFarm.stopInternal env ws c).status ∧
    (¬(c.stopFn = true ∧ ws = true ∧ c.onWsClosed = true) →
      (QQFarm.stopInternal env ws c).status.lands = c.status.lands ∧
      (QQFarm.stopInternal env ws c).status.farmSummary =
        c.status.farmSummary) ∧
    ((c.stopFn = true ∧ ws = true ∧ c.onWsClosed = true) →
      (QQFarm.stopInternal env ws c).status.lands = env.landsView ∧
      (QQFarm.stopInternal env ws c).status.farmSummary = env.farmSummary) ∧
    (QQFarm.startStatusReset p a n).user = none ∧
    (QQFarm.startStatusReset p a n).lands = none ∧
    (QQFarm.startStatusReset p a n).lastError = none ∧
    (QQFarm.startStatusReset p a n).farmSummary = none ∧
    (QQFarm.startStatusReset p a n).bag = none ∧
    (QQFarm.startStatusReset p a n).visits = some ⟨n, []⟩ := by
  obtain ⟨st, ul, uv, pt, sf, ow, fc⟩ := c
  cases sf <;> cases ow <;> cases ws <;>
    simp [QQFarm.stopInternal, QQFarm.runStopFn, QQFarm.updateFarmViews,
      QQFarm.getStatus, QQFarm.startStatusReset]

/-- Witness for the amended C10 with the teardown hook firing. -/
theorem c10_stop_frame_witness :
    (QQFarm.stopInternal QQFarm.demoStopEnv true
      QQFarm.demoPreStopController).status.bag = none ∧
    (QQFarm.stopInternal QQFarm.demoStopEnv true
        QQFarm.demoPreStopController).status.visits =
      QQFarm.demoPreStopController.status.visits ∧
    (QQFarm.stopInternal QQFarm.demoStopEnv true
        QQFarm.demoPreStopController).status.lands =
      QQFarm.demoStopEnv.landsView :=
  ⟨(c10_stop_frame QQFarm.demoStopEnv true QQFarm.demoPreStopController
      .qq "" 0).1,
    (c10_stop_frame QQFarm.demoStopEnv true QQFarm.demoPreStopController
      .qq "" 0).2.2.2.1,
    ((c10_stop_frame QQFarm.demoStopEnv true QQFarm.demoPreStopController
      .qq "" 0).2.2.2.2.2.2.2.2.2.1 ⟨rfl, rfl, rfl⟩).1⟩
